import Mathlib

/-!
Shallow embedding of the sales-analytics dashboard `src/sales.py`.

The in-scope core of the program is embedded as pure Lean functions over a
fixed-schema record type:

* `apply_filters`   — the Filter Engine (sidebar filter block of `sales.py`);
* `calculate_kpis`  — the Metrics Calculator;
* `sales_by_region`, `order_counts` — the Aggregation Pipeline items 2 and 8
  of `create_visualizations`;
* `data`            — the Record Generator (module-level `data` dict).

Real-valued columns (`Sales`, `Discount`, `Profit`) are modelled as rationals;
dates as day numbers.  The pandas operations used by the program are embedded
over `List Row`: boolean-mask filtering is `List.filter`, `groupby(...).sum()`
maps over the deduplicated key column, `unstack(fill_value=0)` is the product
of the two observed key columns with a count per cell.
-/

/-- One order record: a row of the DataFrame built in `sales.py` (the sixteen
generated columns plus the derived `YearMonth` column). -/
structure Row where
  orderId : String
  orderDate : Nat
  customerId : String
  customerName : String
  region : String
  category : String
  subCategory : String
  sales : ℚ
  quantity : Nat
  discount : ℚ
  profit : ℚ
  paymentMethod : String
  customerSegment : String
  shippingType : String
  productId : String
  productName : String
  yearMonth : Nat
  deriving DecidableEq, Repr

/-- The four sidebar multiselect values consumed by the filter block: the list
of selected labels per categorical dimension (each may contain the sentinel
`"All"`, specific values, both, or nothing). -/
structure Selection where
  region : List String
  category : List String
  payment : List String
  segment : List String
  deriving DecidableEq, Repr

/-- Filter Engine: the `# Apply filters` block of `apply_filters` in
`sales.py`.  Starting from a copy of the input frame, for each of the four
dimensions in source order (Region, Category, Payment Method, Customer
Segment): if `'All' not in selected`, keep only the rows whose value for that
dimension `isin` the selected list. -/
def apply_filters (df : List Row) (sel : Selection) : List Row :=
  let filtered0 := df
  let filtered1 :=
    if "All" ∈ sel.region then filtered0
    else filtered0.filter fun r => decide (r.region ∈ sel.region)
  let filtered2 :=
    if "All" ∈ sel.category then filtered1
    else filtered1.filter fun r => decide (r.category ∈ sel.category)
  let filtered3 :=
    if "All" ∈ sel.payment then filtered2
    else filtered2.filter fun r => decide (r.paymentMethod ∈ sel.payment)
  let filtered4 :=
    if "All" ∈ sel.segment then filtered3
    else filtered3.filter fun r => decide (r.customerSegment ∈ sel.segment)
  filtered4

/-- The four scalar KPIs returned by `calculate_kpis`. -/
structure KPIs where
  total_sales : ℚ
  average_profit : ℚ
  average_quantity : ℚ
  total_orders : Nat
  deriving DecidableEq, Repr

/-- Metrics Calculator: `calculate_kpis` of `sales.py`.  On an empty frame it
returns the dictionary with every KPI set to `0`; otherwise the sum of
`Sales`, the means of `Profit` and `Quantity`, and the row count. -/
def calculate_kpis (df : List Row) : KPIs :=
  if df.length = 0 then ⟨0, 0, 0, 0⟩
  else
    { total_sales := (df.map Row.sales).sum
      average_profit := (df.map Row.profit).sum / (df.length : ℚ)
      average_quantity := (df.map fun r => (r.quantity : ℚ)).sum / (df.length : ℚ)
      total_orders := df.length }

/-- The distinct values of a key column, in the order pandas' groupby observes
them (duplicates removed). -/
def group_keys (key : Row → String) (df : List Row) : List String :=
  (df.map key).dedup

/-- `df.groupby(key)[val].sum()`: one `(key, sum)` pair per distinct key. -/
def groupby_sum (key : Row → String) (val : Row → ℚ) (df : List Row) :
    List (String × ℚ) :=
  (group_keys key df).map fun k =>
    (k, ((df.filter fun r => decide (key r = k)).map val).sum)

/-- Aggregation Pipeline item 2 (Plot 2 of `create_visualizations`):
`df.groupby('Region')['Sales'].sum().sort_values(ascending=False)`. -/
def sales_by_region (df : List Row) : List (String × ℚ) :=
  List.insertionSort (fun a b => b.2 ≤ a.2) (groupby_sum Row.region Row.sales df)

/-- Aggregation Pipeline item 8 (Plot 8 of `create_visualizations`):
`df.groupby(['Customer Segment', 'Shipping Type']).size().unstack(fill_value=0)`.
The resulting grid has one cell per pair of an observed segment and an
observed shipping type; a cell with no matching rows holds the fill value 0. -/
def order_counts (df : List Row) : List ((String × String) × Nat) :=
  ((group_keys Row.customerSegment df).product (group_keys Row.shippingType df)).map
    fun p =>
      (p, (df.filter fun r =>
            decide (r.customerSegment = p.1) && decide (r.shippingType = p.2)).length)

/-- The combined row predicate the four filter steps amount to: for each
dimension, either the sentinel `"All"` is selected or the row's value is. -/
def keepRow (sel : Selection) (r : Row) : Bool :=
  (decide ("All" ∈ sel.region) || decide (r.region ∈ sel.region)) &&
  (decide ("All" ∈ sel.category) || decide (r.category ∈ sel.category)) &&
  (decide ("All" ∈ sel.payment) || decide (r.paymentMethod ∈ sel.payment)) &&
  (decide ("All" ∈ sel.segment) || decide (r.customerSegment ∈ sel.segment))

/-! ### Record Generator (module-level generation block of `sales.py`)

`sales.py` seeds `np.random` and the `random` module with 42, but the Faker
instance is created with `fake = Faker()` and never seeded, and
`fake.date_between(start_date='-2y', end_date='today')` additionally depends
on the current date.  The embedding therefore makes the generated dataset a
function of (a) the seed, through abstract deterministic streams standing for
the seeded `random` / `np.random` generators, and (b) a `GenEnv`: the draws of
the unseeded Faker instance together with the current date.  The concrete
Mersenne-Twister mixing and the library distributions are abstracted by fixed
formulas; all claims about the generator concern which inputs determine which
columns, not the sampled values themselves. -/

def n_rows : Nat := 10000

def categories : List String :=
  ["Electronics", "Clothing", "Home & Kitchen", "Books", "Toys", "Sports"]

def regions : List String := ["North", "South", "East", "West"]

def payment_methods : List String :=
  ["Credit Card", "PayPal", "Bank Transfer", "Cash on Delivery"]

def customer_segments : List String := ["Consumer", "Corporate", "Home Office"]

def shipping_types : List String :=
  ["Standard Class", "Second Class", "First Class", "Same Day"]

/-- The i-th draw of the python `random` module after `random.seed seed`: a
fixed deterministic function of the seed (the Mersenne Twister is abstracted
by a mixing formula). -/
def pyRand (seed i : Nat) : Nat :=
  (seed * 6364136223846793005 + i * 1442695040888963407 + 1013904223) % 4294967296

/-- The i-th variate drawn from numpy's generator after `np.random.seed seed`:
a fixed deterministic function of the seed (sampling is abstracted by a mixing
formula; the claims do not depend on the sampled values). -/
def npDraw (seed i : Nat) : ℚ :=
  (((seed + 1) * 2654435761 + i * 40503) % 1000003 : Nat) / 100

/-- Python's `round(x, 2)`, modelled as floor-based rounding to two decimals
(the claims do not depend on the rounding mode). -/
def round2 (x : ℚ) : ℚ := (⌊x * 100⌋ : ℚ) / 100

/-- `skewed_sales` of `sales.py`: `round(np.random.exponential(scale=100), 2)`
applied to the drawn variate. -/
def skewed_sales (draw : ℚ) : ℚ := round2 draw

/-- `skewed_profit` of `sales.py`: `round(np.random.normal(10, 20), 2)` then
`max(profit, 0)`. -/
def skewed_profit (draw : ℚ) : ℚ := max (round2 draw) 0

/-- `random.choice(l)` driven by one draw. -/
def choice (l : List String) (k : Nat) : String := l.getD (k % l.length) ""

/-- `random.randint(lo, hi)` (inclusive bounds) driven by one draw. -/
def randint (lo hi k : Nat) : Nat := lo + k % (hi + 1 - lo)

/-- `fake.uuid4()` as a function of one draw of the Faker instance's stream. -/
def fake_uuid4 (k : Nat) : String := "uuid-" ++ toString k

/-- `fake.word()` as a function of one draw of the Faker instance's stream. -/
def fake_word (k : Nat) : String := "word-" ++ toString k

/-- `fake.name()` as a function of one draw of the Faker instance's stream. -/
def fake_name (k : Nat) : String := "name-" ++ toString k

/-- `fake.date_between(start_date='-2y', end_date='today')`: a day number in
the 2-year window ending at the current date, driven by one Faker draw. -/
def fake_date_between (today k : Nat) : Nat := today - 730 + k % 731

/-- The derived `YearMonth` column: `Order Date` truncated to month
granularity (`dt.to_period('M')`), abstracted to a fixed deterministic
function of the day number. -/
def year_month (d : Nat) : Nat := d / 30

/-- Inputs of the generation block that are NOT fixed by the seed: the stream
of draws of the unseeded Faker instance (`fake = Faker()`; `Faker.seed` is
never called) and the current date (`end_date='today'`). -/
structure GenEnv where
  fakerNat : Nat → Nat
  today : Nat

/-- Row `i` of the generated dataset.  Generation in `sales.py` is
column-major (one comprehension per dict entry), so each column consumes its
own contiguous block of the relevant stream; row `i` holds the i-th entry of
each block.  Columns in source order: Order ID, Order Date, Customer ID,
Customer Name (Faker blocks 0..3); Region, Category (python-random blocks
0..1); Sub-Category (Faker block 4); Sales (numpy block 0); Quantity,
Discount (python-random blocks 2..3); Profit (numpy block 1); Payment Method,
Customer Segment, Shipping Type (python-random blocks 4..6); Product ID
(Faker block 5); Product Name (Faker block 6, two draws per row). -/
def rowAt (seed : Nat) (env : GenEnv) (i : Nat) : Row :=
  let d := fake_date_between env.today (env.fakerNat (n_rows + i))
  { orderId := fake_uuid4 (env.fakerNat i)
    orderDate := d
    customerId := fake_uuid4 (env.fakerNat (2 * n_rows + i))
    customerName := fake_name (env.fakerNat (3 * n_rows + i))
    region := choice regions (pyRand seed i)
    category := choice categories (pyRand seed (n_rows + i))
    subCategory := fake_word (env.fakerNat (4 * n_rows + i))
    sales := skewed_sales (npDraw seed i)
    quantity := randint 1 10 (pyRand seed (2 * n_rows + i))
    discount := [0, 1/10, 2/10, 3/10].getD (pyRand seed (3 * n_rows + i) % 4) 0
    profit := skewed_profit (npDraw seed (n_rows + i))
    paymentMethod := choice payment_methods (pyRand seed (4 * n_rows + i))
    customerSegment := choice customer_segments (pyRand seed (5 * n_rows + i))
    shippingType := choice shipping_types (pyRand seed (6 * n_rows + i))
    productId := fake_uuid4 (env.fakerNat (5 * n_rows + i))
    productName :=
      fake_word (env.fakerNat (6 * n_rows + 2 * i)) ++ " " ++
        fake_word (env.fakerNat (6 * n_rows + 2 * i + 1))
    yearMonth := year_month d }

/-- The rows with indices `i, i+1, ..., i+c-1` of the generated dataset. -/
def genRows (seed : Nat) (env : GenEnv) (i : Nat) : Nat → List Row
  | 0 => []
  | c + 1 => rowAt seed env i :: genRows seed env (i + 1) c

/-- The generated dataset `data` / `df` of `sales.py`: `n_rows` records,
a function of the fixed seed and of the unseeded generation environment. -/
def data (seed : Nat) (env : GenEnv) : List Row := genRows seed env 0 n_rows

/-! ### Heap model for the frame claim

`apply_filters` receives a reference to the module-level DataFrame.  To state
that it never mutates it, the pandas objects reachable during the call are
modelled explicitly: a heap of frames (addresses are list indices), where
`df.copy()` and each boolean-mask indexing allocate a fresh frame and no
operation writes to an existing cell. -/

abbrev Heap := List (List Row)

/-- Allocate a fresh frame, returning the new heap and the fresh address. -/
def alloc (h : Heap) (v : List Row) : Heap × Nat := (h ++ [v], h.length)

/-- One filter step on the heap: when the sentinel is absent from the
selection, `filtered_df = filtered_df[mask]` allocates a fresh frame holding
the filtered rows and rebinds the local name; otherwise the binding is left
as is. -/
def filterHeapStep (b : Prop) [Decidable b] (p : Row → Bool) (st : Heap × Nat) :
    Heap × Nat :=
  if b then st else alloc st.1 ((st.1.getD st.2 []).filter p)

/-- `apply_filters` on the heap: `filtered_df = df.copy()` allocates a copy,
then the four conditional mask-filter steps run in source order.  Returns the
final heap and the address of the returned frame. -/
def applyFiltersHeap (h : Heap) (a : Nat) (sel : Selection) : Heap × Nat :=
  let st0 := alloc h (h.getD a [])
  let st1 := filterHeapStep ("All" ∈ sel.region)
    (fun r => decide (r.region ∈ sel.region)) st0
  let st2 := filterHeapStep ("All" ∈ sel.category)
    (fun r => decide (r.category ∈ sel.category)) st1
  let st3 := filterHeapStep ("All" ∈ sel.payment)
    (fun r => decide (r.paymentMethod ∈ sel.payment)) st2
  let st4 := filterHeapStep ("All" ∈ sel.segment)
    (fun r => decide (r.customerSegment ∈ sel.segment)) st3
  st4

lemma if_filter_eq (b : Prop) [Decidable b] (p : Row → Bool) (l : List Row) :
    (if b then l else l.filter p) = l.filter fun r => decide b || p r := by
  by_cases h : b
  · simp [h]
  · simp [h]

lemma apply_filters_eq_filter (df : List Row) (sel : Selection) :
    apply_filters df sel = df.filter (keepRow sel) := by
  simp only [apply_filters]
  rw [if_filter_eq, if_filter_eq, if_filter_eq, if_filter_eq]
  simp only [List.filter_filter]
  apply List.filter_congr
  intro r _
  unfold keepRow
  ac_rfl

lemma apply_filters_sublist (df : List Row) (sel : Selection) :
    List.Sublist (apply_filters df sel) df := by
  rw [apply_filters_eq_filter]
  exact List.filter_sublist df

lemma sum_map_filter_split (p : Row → Bool) (val : Row → ℚ) (df : List Row) :
    ((df.filter p).map val).sum + ((df.filter fun r => !p r).map val).sum
      = (df.map val).sum := by
  induction df with
  | nil => simp
  | cons r t ih =>
    by_cases h : p r = true
    · simp [List.filter_cons, h]
      linarith [ih]
    · simp [List.filter_cons, h]
      linarith [ih]

lemma sum_groupby_key (key : Row → String) (val : Row → ℚ) :
    ∀ (ks : List String) (df : List Row), ks.Nodup → (∀ r ∈ df, key r ∈ ks) →
      (ks.map fun k => ((df.filter fun r => decide (key r = k)).map val).sum).sum
        = (df.map val).sum := by
  intro ks
  induction ks with
  | nil =>
    intro df _ hcov
    cases df with
    | nil => simp
    | cons r t => exact absurd (hcov r (by simp)) (by simp)
  | cons k ks ih =>
    intro df hnd hcov
    have hk : k ∉ ks := (List.nodup_cons.1 hnd).1
    have hnd' : ks.Nodup := (List.nodup_cons.1 hnd).2
    have htail : ∀ k' ∈ ks,
        ((df.filter fun r => !decide (key r = k)).filter
            fun r => decide (key r = k'))
          = df.filter fun r => decide (key r = k') := by
      intro k' hk'
      rw [List.filter_filter]
      apply List.filter_congr
      intro r _
      by_cases h : key r = k'
      · have hne : ¬k' = k := fun hkk => hk (hkk ▸ hk')
        simp [h, hne]
      · simp [h]
    have hcov' : ∀ r ∈ df.filter fun r => !decide (key r = k), key r ∈ ks := by
      intro r hr
      have hmem := List.mem_filter.1 hr
      have hne : key r ≠ k := by simpa using hmem.2
      rcases List.mem_cons.1 (hcov r hmem.1) with h | h
      · exact absurd h hne
      · exact h
    have hmap : (ks.map fun k' =>
          ((df.filter fun r => decide (key r = k')).map val).sum)
        = ks.map fun k' =>
          (((df.filter fun r => !decide (key r = k)).filter
              fun r => decide (key r = k')).map val).sum :=
      List.map_congr_left fun k' hk' => by rw [htail k' hk']
    simp only [List.map_cons, List.sum_cons]
    rw [hmap, ih _ hnd' hcov']
    have hsplit := sum_map_filter_split (fun r => decide (key r = k)) val df
    simp only [] at hsplit
    linarith [hsplit]

/-! ### Concrete records used in witnesses and counterexamples -/

/-- A concrete order record (region North, segment Consumer, Standard Class). -/
def row1 : Row :=
  { orderId := "o1", orderDate := 800, customerId := "c1", customerName := "A"
    region := "North", category := "Books", subCategory := "w"
    sales := 10, quantity := 2, discount := 0, profit := 3
    paymentMethod := "PayPal", customerSegment := "Consumer"
    shippingType := "Standard Class", productId := "p1", productName := "P Q"
    yearMonth := 26 }

/-- A concrete order record (region South, segment Corporate, Same Day). -/
def row2 : Row :=
  { orderId := "o2", orderDate := 801, customerId := "c2", customerName := "B"
    region := "South", category := "Toys", subCategory := "v"
    sales := 5, quantity := 1, discount := 1/10, profit := 2
    paymentMethod := "Cash on Delivery", customerSegment := "Corporate"
    shippingType := "Same Day", productId := "p2", productName := "R S"
    yearMonth := 26 }

/-- A two-row concrete dataset. -/
def df0 : List Row := [row1, row2]

/-! ### Claim theorems -/

/-- C1 (counterexample): the Filter Engine does NOT treat an empty selection
like the "all" sentinel.  With an empty Region selection (sentinel absent) and
every other dimension at `"All"`, the two-row dataset `df0` is filtered down
to nothing: the empty selection removed rows on the Region dimension's
account. -/
theorem c1_empty_selection_counterexample :
    apply_filters df0 ⟨[], ["All"], ["All"], ["All"]⟩ = [] ∧ df0.length = 2 := by
  constructor
  · rfl
  · rfl

/-- C1 (amended): an empty selection for any dimension behaves as an empty
allowed set, not as the "all" sentinel: `'All' not in []` holds, so the
`isin([])` mask removes every row, and the Filter Engine returns the empty
set whenever any dimension's selection is empty. -/
theorem c1_empty_selection_drops_all (df : List Row) (sel : Selection)
    (h : sel.region = [] ∨ sel.category = [] ∨ sel.payment = [] ∨ sel.segment = []) :
    apply_filters df sel = [] := by
  rw [apply_filters_eq_filter, List.filter_eq_nil_iff]
  intro r _
  unfold keepRow
  rcases h with h | h | h | h <;> simp [h]

theorem c1_empty_selection_drops_all_witness :
    apply_filters df0 ⟨["North"], [], ["All"], ["All"]⟩ = [] :=
  c1_empty_selection_drops_all df0 ⟨["North"], [], ["All"], ["All"]⟩
    (Or.inr (Or.inl rfl))

/-- C6: for every input record set and every selection over the four
categorical dimensions, the Filter Engine's output is a subset of the input
(and so its cardinality is at most the input's). -/
theorem c6_filter_subset (df : List Row) (sel : Selection) :
    (∀ r ∈ apply_filters df sel, r ∈ df)
    ∧ (apply_filters df sel).length ≤ df.length := by
  have hs := apply_filters_sublist df sel
  exact ⟨fun r hr => hs.mem hr, hs.length_le⟩

theorem c6_filter_subset_witness : row1 ∈ df0 :=
  (c6_filter_subset df0 ⟨["North"], ["All"], ["All"], ["All"]⟩).1 row1 (by decide)

/-- C7: the Filter Engine is idempotent — applying the filter with a
selection to a set already filtered by the same selection yields that set. -/
theorem c7_filter_idempotent (df : List Row) (sel : Selection) :
    apply_filters (apply_filters df sel) sel = apply_filters df sel := by
  simp only [apply_filters_eq_filter, List.filter_filter]
  apply List.filter_congr
  intro r _
  simp

/-- C8 (counterexample): an empty selection for every dimension does NOT
return the full input set: on the two-row dataset `df0` it returns the empty
set. -/
theorem c8_empty_selection_counterexample :
    apply_filters df0 ⟨[], [], [], []⟩ = [] ∧ df0 ≠ [] := by
  refine ⟨rfl, ?_⟩
  decide

/-- C8 (amended): selecting `"All"` for every dimension returns the full
input set unchanged in content and row order; an empty selection for every
dimension instead returns the empty set. -/
theorem c8_all_sentinel_identity (df : List Row) :
    apply_filters df ⟨["All"], ["All"], ["All"], ["All"]⟩ = df
    ∧ apply_filters df ⟨[], [], [], []⟩ = [] := by
  constructor
  · simp [apply_filters]
  · rw [apply_filters_eq_filter, List.filter_eq_nil_iff]
    intro r _
    simp [keepRow]

/-- C10: for each dimension, when the sentinel `"All"` is among the selected
values — even alongside specific values — that dimension imposes no
constraint and the other selected values are ignored (the outcome equals the
one for the pure-sentinel selection); when `"All"` is entirely absent, every
surviving row's value for that dimension lies in the selection. -/
theorem c10_sentinel_dominates (df : List Row) (r c p s : List String) :
    ("All" ∈ r → apply_filters df ⟨r, c, p, s⟩ = apply_filters df ⟨["All"], c, p, s⟩)
    ∧ ("All" ∉ r → ∀ x ∈ apply_filters df ⟨r, c, p, s⟩, x.region ∈ r)
    ∧ ("All" ∈ c → apply_filters df ⟨r, c, p, s⟩ = apply_filters df ⟨r, ["All"], p, s⟩)
    ∧ ("All" ∉ c → ∀ x ∈ apply_filters df ⟨r, c, p, s⟩, x.category ∈ c)
    ∧ ("All" ∈ p → apply_filters df ⟨r, c, p, s⟩ = apply_filters df ⟨r, c, ["All"], s⟩)
    ∧ ("All" ∉ p → ∀ x ∈ apply_filters df ⟨r, c, p, s⟩, x.paymentMethod ∈ p)
    ∧ ("All" ∈ s → apply_filters df ⟨r, c, p, s⟩ = apply_filters df ⟨r, c, p, ["All"]⟩)
    ∧ ("All" ∉ s → ∀ x ∈ apply_filters df ⟨r, c, p, s⟩, x.customerSegment ∈ s) := by
  refine ⟨fun h => by simp [apply_filters, h], fun h x hx => ?_,
    fun h => by simp [apply_filters, h], fun h x hx => ?_,
    fun h => by simp [apply_filters, h], fun h x hx => ?_,
    fun h => by simp [apply_filters, h], fun h x hx => ?_⟩ <;>
  · rw [apply_filters_eq_filter] at hx
    have hkeep := (List.mem_filter.1 hx).2
    simp [keepRow, h] at hkeep
    tauto

theorem c10_sentinel_dominates_witness :
    apply_filters df0 ⟨["All", "North"], ["All"], ["All"], ["All"]⟩
      = apply_filters df0 ⟨["All"], ["All"], ["All"], ["All"]⟩
    ∧ row1.region ∈ ["North"] :=
  ⟨(c10_sentinel_dominates df0 ["All", "North"] ["All"] ["All"] ["All"]).1 (by decide),
   (c10_sentinel_dominates df0 ["North"] ["All"] ["All"] ["All"]).2.1 (by decide)
     row1 (by decide)⟩

/-- C2 (counterexample): pipeline item 8 does NOT produce a
`|segments| x |shipping types|` grid over the declared enumerations.  On a
one-row dataset the grid has a single cell instead of
`customer_segments.length * shipping_types.length = 12`, and the combination
(Corporate, Same Day), absent from the data, appears nowhere — the grid only
spans values observed in the input. -/
theorem c2_grid_counterexample :
    (order_counts [row1]).length = 1
    ∧ customer_segments.length * shipping_types.length = 12
    ∧ ∀ cell ∈ order_counts [row1], cell.1 ≠ ("Corporate", "Same Day") := by
  refine ⟨rfl, rfl, ?_⟩
  decide

/-- C2 (amended): pipeline item 8 produces a grid with exactly
`|observed segments| x |observed shipping types|` cells — the cross-product of
the segment and shipping-type values occurring in the input — and every such
combination is present as a cell, with an explicit count of 0 when no record
matches it. -/
theorem c2_grid_observed (df : List Row) :
    (order_counts df).length
        = (group_keys Row.customerSegment df).length
            * (group_keys Row.shippingType df).length
    ∧ (∀ s ∈ group_keys Row.customerSegment df,
        ∀ t ∈ group_keys Row.shippingType df,
        ((s, t), (df.filter fun r =>
            decide (r.customerSegment = s) && decide (r.shippingType = t)).length)
          ∈ order_counts df)
    ∧ (∀ s ∈ group_keys Row.customerSegment df,
        ∀ t ∈ group_keys Row.shippingType df,
        (∀ r ∈ df, ¬(r.customerSegment = s ∧ r.shippingType = t)) →
          ((s, t), 0) ∈ order_counts df) := by
  refine ⟨?_, ?_, ?_⟩
  · simp only [order_counts, List.length_map]
    exact List.length_product _ _
  · intro s hs t ht
    apply List.mem_map.2
    exact ⟨(s, t), List.mem_product.2 ⟨hs, ht⟩, rfl⟩
  · intro s hs t ht habs
    have hz : (df.filter fun r =>
        decide (r.customerSegment = s) && decide (r.shippingType = t)) = [] := by
      rw [List.filter_eq_nil_iff]
      intro r hr
      simp only [Bool.and_eq_true, decide_eq_true_eq, not_and]
      intro h1 h2
      exact habs r hr ⟨h1, h2⟩
    apply List.mem_map.2
    refine ⟨(s, t), List.mem_product.2 ⟨hs, ht⟩, ?_⟩
    simp [hz]

theorem c2_grid_observed_witness :
    (("Consumer", "Same Day"), 0) ∈ order_counts df0 :=
  (c2_grid_observed df0).2.2 "Consumer" (by decide) "Same Day" (by decide) (by decide)

/-- C4: the Metrics Calculator returns zero for all four KPIs on an empty
record set, and on any non-empty record set `total_orders` equals the input's
row count exactly. -/
theorem c4_kpis_empty_and_count :
    calculate_kpis [] = ⟨0, 0, 0, 0⟩
    ∧ ∀ df : List Row, df ≠ [] → (calculate_kpis df).total_orders = df.length := by
  constructor
  · rfl
  · intro df h
    have hlen : ¬df.length = 0 := fun h0 => h (List.length_eq_zero.1 h0)
    simp [calculate_kpis, hlen]

theorem c4_kpis_empty_and_count_witness :
    (calculate_kpis df0).total_orders = df0.length :=
  c4_kpis_empty_and_count.2 df0 (by decide)

/-- C5: the sum over all groups of pipeline item 2 (sales summed by region,
sorted descending) equals the `total_sales` KPI computed over the same record
set. -/
theorem c5_region_sums_total (df : List Row) :
    ((sales_by_region df).map Prod.snd).sum = (calculate_kpis df).total_sales := by
  have hperm : List.Perm (sales_by_region df) (groupby_sum Row.region Row.sales df) :=
    List.perm_insertionSort _ _
  rw [(hperm.map Prod.snd).sum_eq]
  unfold groupby_sum
  by_cases hdf : df.length = 0
  · have hnil : df = [] := List.length_eq_zero.1 hdf
    subst hnil
    simp [calculate_kpis, group_keys]
  · have hnd : (group_keys Row.region df).Nodup := List.nodup_dedup _
    have hcov : ∀ r ∈ df, Row.region r ∈ group_keys Row.region df := fun r hr =>
      List.mem_dedup.2 (List.mem_map_of_mem Row.region hr)
    have hmain := sum_groupby_key Row.region Row.sales (group_keys Row.region df)
      df hnd hcov
    simp only [calculate_kpis, hdf, if_false, List.map_map]
    rw [← hmain]
    congr 1

/-- A generation environment: one possible run of the unseeded Faker instance
together with a current date. -/
def envA : GenEnv := ⟨fun _ => 0, 20000⟩

/-- A second generation environment with the same date but a different Faker
run. -/
def envB : GenEnv := ⟨fun _ => 1, 20000⟩

/-- C3 (code bug): the generation step is NOT determined by the fixed seed.
With the same seed 42, two runs that differ only in the state of the unseeded
Faker instance (`fake = Faker()`; `Faker.seed` is never called) produce
different record sets — already the first row's `Order Date` (and `Order ID`,
names, product fields) differ.  The seeded columns are reproducible, but the
dataset as a whole is not byte-identical across runs. -/
theorem c3_generator_not_seed_determined : data 42 envA ≠ data 42 envB := by
  intro h
  have h0 : (data 42 envA).head? = (data 42 envB).head? := by rw [h]
  rw [show (data 42 envA).head? = some (rowAt 42 envA 0) from rfl,
      show (data 42 envB).head? = some (rowAt 42 envB 0) from rfl] at h0
  have hid := congrArg Row.orderDate (Option.some.inj h0)
  simp [rowAt, envA, envB, fake_date_between, n_rows] at hid

lemma filterHeapStep_spec (b : Prop) [Decidable b] (p : Row → Bool)
    (h0 : Heap) (st : Heap × Nat) (v : List Row)
    (hext : ∃ e, st.1 = h0 ++ e)
    (hlt : st.2 < st.1.length)
    (hval : st.1.getD st.2 [] = v) :
    (∃ e, (filterHeapStep b p st).1 = h0 ++ e)
    ∧ (filterHeapStep b p st).2 < (filterHeapStep b p st).1.length
    ∧ (filterHeapStep b p st).1.getD (filterHeapStep b p st).2 []
        = if b then v else v.filter p := by
  have hval' : st.1[st.2]?.getD [] = v := by simpa using hval
  unfold filterHeapStep
  by_cases hb : b
  · simp only [if_pos hb]
    exact ⟨hext, hlt, by simpa using hval⟩
  · simp only [if_neg hb]
    obtain ⟨e, he⟩ := hext
    refine ⟨⟨e ++ [(st.1.getD st.2 []).filter p], by simp [alloc, he]⟩,
      by simp [alloc], ?_⟩
    simp only [alloc]
    rw [List.getD_append_right _ _ _ _ (le_refl _)]
    simp [hb, hval']

/-- C9: the Filter Engine never mutates the source record set.  In the heap
model, running `apply_filters` on the frame stored at any address leaves every
pre-existing heap cell — in particular the source dataset — unchanged, and the
frame it returns is a fresh cell holding exactly the filtered view of the
source. -/
theorem c9_no_mutation (h : Heap) (a : Nat) (sel : Selection) :
    (∀ i, i < h.length →
      (applyFiltersHeap h a sel).1.getD i [] = h.getD i [])
    ∧ (applyFiltersHeap h a sel).1.getD (applyFiltersHeap h a sel).2 []
        = apply_filters (h.getD a []) sel := by
  have spec0 : (∃ e, (alloc h (h.getD a [])).1 = h ++ e)
      ∧ (alloc h (h.getD a [])).2 < (alloc h (h.getD a [])).1.length
      ∧ (alloc h (h.getD a [])).1.getD (alloc h (h.getD a [])).2 []
          = h.getD a [] := by
    refine ⟨⟨[h.getD a []], rfl⟩, by simp [alloc], ?_⟩
    simp only [alloc]
    rw [List.getD_append_right _ _ _ _ (le_refl _)]
    simp
  have spec1 := filterHeapStep_spec ("All" ∈ sel.region)
    (fun r => decide (r.region ∈ sel.region)) h _ _ spec0.1 spec0.2.1 spec0.2.2
  have spec2 := filterHeapStep_spec ("All" ∈ sel.category)
    (fun r => decide (r.category ∈ sel.category)) h _ _ spec1.1 spec1.2.1 spec1.2.2
  have spec3 := filterHeapStep_spec ("All" ∈ sel.payment)
    (fun r => decide (r.paymentMethod ∈ sel.payment)) h _ _ spec2.1 spec2.2.1 spec2.2.2
  have spec4 := filterHeapStep_spec ("All" ∈ sel.segment)
    (fun r => decide (r.customerSegment ∈ sel.segment)) h _ _ spec3.1 spec3.2.1 spec3.2.2
  have hun : applyFiltersHeap h a sel
      = filterHeapStep ("All" ∈ sel.segment)
          (fun r => decide (r.customerSegment ∈ sel.segment))
          (filterHeapStep ("All" ∈ sel.payment)
            (fun r => decide (r.paymentMethod ∈ sel.payment))
            (filterHeapStep ("All" ∈ sel.category)
              (fun r => decide (r.category ∈ sel.category))
              (filterHeapStep ("All" ∈ sel.region)
                (fun r => decide (r.region ∈ sel.region))
                (alloc h (h.getD a []))))) := rfl
  rw [hun]
  constructor
  · intro i hi
    obtain ⟨e, he⟩ := spec4.1
    rw [he, List.getD_append _ _ _ _ hi]
  · rw [spec4.2.2]
    rfl

theorem c9_no_mutation_witness :
    (applyFiltersHeap [df0] 0 ⟨["North"], ["All"], ["All"], ["All"]⟩).1.getD 0 []
      = df0 :=
  (c9_no_mutation [df0] 0 ⟨["North"], ["All"], ["All"], ["All"]⟩).1 0 (by decide)
